import Mathlib

/-!
Shallow embedding of the ai_meetmind meeting-processing pipeline:
the AI stage adapters of aiService.js, the background orchestration in
meetingRoutes.js (processAIAnalysis and the upload route's catch handler),
the task materializer of taskService.js, and the participant parsing helper
of the meeting model. Remote provider calls and the durable store are made
explicit parameters; machine behaviour (JS truthiness, thrown errors caught
by catch blocks) is modelled field by field from the source.
-/

namespace MeetMind

/-- Application error value thrown by the backend (errorHandler.js AppError):
a human-readable message plus an HTTP status code. -/
structure AppError where
  message : String
  statusCode : Nat
deriving DecidableEq, Repr

/-- Raw verbose-json transcription returned by the speech-to-text provider
(openai.audio.transcriptions.create in aiService.js). The fields are exactly
the ones transcribeAudio reads; segments and words are kept abstract as
timestamped strings. -/
structure TranscriptionRaw where
  text : String
  duration : Nat
  language : String
  segments : List (Nat × String)
  words : List (Nat × String)
deriving DecidableEq, Repr

/-- TranscriptionResult value object assembled by transcribeAudio from the raw
provider response. -/
structure TranscriptionResult where
  text : String
  duration : Nat
  language : String
  segments : List (Nat × String)
  words : List (Nat × String)
deriving DecidableEq, Repr

/-- Outcome of one remote provider call: an ok payload, or a thrown error
carrying `some code` when the provider attached an HTTP response status and
`none` otherwise (network failures, and locally thrown AppError values, which
have no response field, so the catch blocks read no status from them). -/
abbrev ProviderCall (α : Type) := Except (Option Nat) α

/-- transcribeAudio from aiService.js (lines 16-54). `configured` models
isOpenAIConfigured(); `call` models the Whisper request. The unconfigured
branch throws an AppError inside the try block; that AppError has no response
field, so the catch block reads no status from it (modelled as `.error none`)
and reaches the generic branch. -/
def transcribeAudio (configured : Bool) (call : ProviderCall TranscriptionRaw) :
    Except AppError TranscriptionResult :=
  let body : ProviderCall TranscriptionResult :=
    if configured then
      match call with
      | .ok t => .ok ⟨t.text, t.duration, t.language, t.segments, t.words⟩
      | .error s => .error s
    else .error none
  match body with
  | .ok r => .ok r
  | .error status =>
    if status = some 429 then
      .error ⟨"OpenAI API rate limit exceeded. Please try again later.", 429⟩
    else if status = some 401 then
      .error ⟨"OpenAI API authentication failed", 500⟩
    else if status = some 413 then
      .error ⟨"Audio file too large. Maximum size is 25MB.", 400⟩
    else
      .error ⟨"Failed to transcribe audio", 500⟩

/-- Participant slot of the minutes prompt: the joined names, or the literal
placeholder when the list is empty (aiService.js line 69). -/
def renderParticipants (participants : List String) : String :=
  if participants.length > 0 then String.intercalate (", ") participants
  else "Not specified"

/-- User prompt built by generateMOM (aiService.js lines 65-84). -/
def momPrompt (transcript meetingTitle : String) (participants : List String) :
    String :=
  "\nPlease create comprehensive Minutes of Meeting (MOM) from the following meeting transcript.\n\nMeeting Title: "
    ++ meetingTitle
    ++ "\nParticipants: "
    ++ renderParticipants participants
    ++ "\n\nTranscript:\n"
    ++ transcript
    ++ "\n\nPlease format the MOM with the following structure:\n1. Meeting Overview\n2. Attendees\n3. Key Discussion Points\n4. Decisions Made\n5. Action Items (with responsible persons if mentioned)\n6. Next Steps\n7. Next Meeting (if mentioned)\n\nMake it professional, concise, and well-organized.\n"

/-- generateMOM from aiService.js (lines 57-115). `chat` models the completion
call, applied to the rendered prompt; 429 propagates as a rate-limit error,
every other failure becomes the generic synthesis failure. -/
def generateMOM (configured : Bool) (chat : String → ProviderCall String)
    (transcript meetingTitle : String) (participants : List String) :
    Except AppError String :=
  let body : ProviderCall String :=
    if configured then chat (momPrompt transcript meetingTitle participants)
    else .error none
  match body with
  | .ok mom => .ok mom
  | .error status =>
    if status = some 429 then
      .error ⟨"OpenAI API rate limit exceeded. Please try again later.", 429⟩
    else
      .error ⟨"Failed to generate Minutes of Meeting", 500⟩

/-- Action item as produced by JSON.parse on the extractor response and
consumed verbatim by the task materializer. priority is `none` when the key is
absent from the parsed object (JS undefined); no further validation is applied
anywhere between parse and materialization. -/
structure ActionItem where
  task : String
  assignee : String
  deadline : String
  priority : Option String
  category : String
deriving DecidableEq, Repr

/-- Observable shape of the extractor chat response after JSON.parse
(aiService.js lines 171-176): content on which JSON.parse throws, a parsed
object whose action_items key is absent or null (so reading its length then
throws), or a parsed object carrying a list of items. -/
inductive ExtractResponse
  | unparseable
  | missingItems
  | items (l : List ActionItem)
deriving DecidableEq, Repr

/-- Source-kind header of the extraction prompt (aiService.js line 129). -/
def extractHeader (context : String) : String :=
  if context = "transcript" then "Meeting Transcript:" else "Meeting Content:"

/-- User prompt built by extractActionItems (aiService.js lines 126-153). -/
def extractPrompt (text context : String) : String :=
  "\nAnalyze the following "
    ++ context
    ++ " and extract all action items, tasks, and follow-ups mentioned.\n\n"
    ++ extractHeader context
    ++ "\n"
    ++ text
    ++ "\n\nPlease extract action items in the following JSON format:\n\x7b\n  \"action_items\": [\n    \x7b\n      \"task\": \"Description of the task\",\n      \"assignee\": \"Person responsible (if mentioned, otherwise \x27Not specified\x27)\",\n      \"deadline\": \"Deadline if mentioned (otherwise \x27Not specified\x27)\",\n      \"priority\": \"high/medium/low (based on context)\",\n      \"category\": \"Category of the task (e.g., \x27Development\x27, \x27Research\x27, \x27Meeting\x27, \x27Documentation\x27)\"\n    \x7d\n  ]\n\x7d\n\nFocus on:\n- Clear, actionable tasks\n- Specific deliverables\n- Follow-up meetings\n- Research or investigation tasks\n- Decisions that require implementation\n\nReturn only the JSON object, no additional text.\n"

/-- extractActionItems from aiService.js (lines 118-186). A response on which
JSON.parse throws, or whose action_items field is missing, raises an error
with no response status inside the try block, so the catch maps it to the
generic extraction failure; a parsed list is returned verbatim, with no
per-item validation. -/
def extractActionItems (configured : Bool)
    (chat : String → ProviderCall ExtractResponse)
    (text : String) (context : String := "transcript") :
    Except AppError (List ActionItem) :=
  let body : ProviderCall (List ActionItem) :=
    if configured then
      match chat (extractPrompt text context) with
      | .ok .unparseable => .error none
      | .ok .missingItems => .error none
      | .ok (.items l) => .ok l
      | .error s => .error s
    else .error none
  match body with
  | .ok l => .ok l
  | .error status =>
    if status = some 429 then
      .error ⟨"OpenAI API rate limit exceeded. Please try again later.", 429⟩
    else
      .error ⟨"Failed to extract action items", 500⟩

/-- One bullet of the action-item block of the summary prompt
(aiService.js line 198). -/
def actionItemLine (item : ActionItem) : String :=
  "- " ++ item.task ++ " (Assignee: " ++ item.assignee ++ ", Deadline: "
    ++ item.deadline ++ ")"

/-- Action-item block of the summary prompt (aiService.js lines 197-199):
joined bullets, or an explicit no-items clause for the empty list. -/
def actionItemsText (actionItems : List ActionItem) : String :=
  if actionItems.length > 0 then
    String.intercalate ("\n") (actionItems.map actionItemLine)
  else "No specific action items identified."

/-- User prompt built by generateEmailSummary (aiService.js lines 201-218). -/
def summaryPrompt (mom : String) (actionItems : List ActionItem) : String :=
  "\nCreate a concise, email-ready summary from the following Minutes of Meeting.\n\nMinutes of Meeting:\n"
    ++ mom
    ++ "\n\nAction Items:\n"
    ++ actionItemsText actionItems
    ++ "\n\nPlease create a professional email summary that includes:\n1. Brief meeting overview (2-3 sentences)\n2. Key decisions/outcomes\n3. Priority action items\n4. Next steps\n\nKeep it concise (under 300 words) and suitable for sending to stakeholders who may not have attended the meeting.\nUse a professional but friendly tone.\n"

/-- generateEmailSummary from aiService.js (lines 189-249): same error mapping
as the other completion stages, with its own generic failure message. -/
def generateEmailSummary (configured : Bool) (chat : String → ProviderCall String)
    (mom : String) (actionItems : List ActionItem) : Except AppError String :=
  let body : ProviderCall String :=
    if configured then chat (summaryPrompt mom actionItems)
    else .error none
  match body with
  | .ok summary => .ok summary
  | .error status =>
    if status = some 429 then
      .error ⟨"OpenAI API rate limit exceeded. Please try again later.", 429⟩
    else
      .error ⟨"Failed to generate email summary", 500⟩

/-- Remote endpoints available to one pipeline run: the Whisper transcription
call and the three completion calls, each keyed by the prompt it receives. -/
structure Providers where
  whisper : ProviderCall TranscriptionRaw
  momChat : String → ProviderCall String
  extractChat : String → ProviderCall ExtractResponse
  summaryChat : String → ProviderCall String

/-- In-memory results of one successful run of the four AI stages
(return value of processCompleteeMeeting, aiService.js lines 270-277). -/
structure AIResults where
  transcription : TranscriptionResult
  mom : String
  actionItems : List ActionItem
  emailSummary : String
deriving DecidableEq, Repr

/-- processCompleteeMeeting from aiService.js (lines 252-282): the four AI
stages run strictly in sequence, each consuming the previous in-memory result;
the first failure propagates unchanged (the catch only logs and rethrows) and
nothing is persisted here. -/
def processCompleteeMeeting (configured : Bool) (env : Providers)
    (meetingTitle : String) (participants : List String) :
    Except AppError AIResults := do
  let transcription ← transcribeAudio configured env.whisper
  let mom ← generateMOM configured env.momChat transcription.text meetingTitle
    participants
  let actionItems ← extractActionItems configured env.extractChat
    transcription.text
  let emailSummary ← generateEmailSummary configured env.summaryChat mom
    actionItems
  return ⟨transcription, mom, actionItems, emailSummary⟩

/-- Pipeline-relevant fields of one Airtable meeting record: transcript, mom
and summary are null until written, action_points is null until the task-ID
list is written. Fields the pipeline never touches (title, project link,
recording url, dates) are outside the pipeline write-back contract and are
omitted. -/
structure MeetingFields where
  transcript : Option String
  mom : Option String
  summary : Option String
  action_points : Option (List String)
deriving DecidableEq, Repr

/-- Fields of one Airtable task record, as written by the task service. A
`none` field is one the record was created without (JS null or undefined
skips the Airtable field). -/
structure TaskFields where
  name : String
  owner_id : Option String
  status : String
  deadline : Option String
  source_meeting : Option (List String)
  team : String
  description : String
  priority : String
deriving DecidableEq, Repr

/-- Created Airtable task record: opaque id plus its fields. -/
structure TaskRecord where
  id : String
  fields : TaskFields
deriving DecidableEq, Repr

/-- Fields of the task record built from one action item
(taskService.js createTasksFromActionItems, lines 51-63). The JS guards are
kept: a sentinel assignee or deadline maps to null; a falsy (empty) meetingId
leaves source_meeting unset; an absent or falsy empty priority defaults to
medium; status is always pending. -/
def actionItemTaskFields (item : ActionItem) (meetingId projectId : String) :
    TaskFields where
  name := item.task
  owner_id := if item.assignee ≠ "Not specified" then some item.assignee else none
  status := "pending"
  deadline := if item.deadline ≠ "Not specified" then some item.deadline else none
  source_meeting := if meetingId ≠ "" then some [meetingId] else none
  team := projectId
  description := "Auto-generated from meeting action item: " ++ item.task
  priority :=
    match item.priority with
    | some p => if p ≠ "" then p else "medium"
    | none => "medium"

/-- Airtable assigns an opaque id to each created record; modelled as an id
fresh with respect to the current size of the task table. -/
def freshTaskId (n : Nat) : String := "recTask" ++ toString n

/-- Records a batch create builds from the action items, one per item in
order, with fresh ids starting at the current table size (the id assignment
belongs to Airtable and is modelled here). -/
def createdTaskRecords (start : Nat) (l : List ActionItem)
    (meetingId projectId : String) : List TaskRecord :=
  match l with
  | [] => []
  | item :: rest =>
    ⟨freshTaskId start, actionItemTaskFields item meetingId projectId⟩ ::
      createdTaskRecords (start + 1) rest meetingId projectId

/-- createTasksFromActionItems from taskService.js (lines 39-73), as a
transition on the task table returning the created records and the new table.
The configured check comes first and its thrown AppError is rewrapped by the
surrounding catch into the generic failure; a null or empty input returns the
empty list before the table is touched; otherwise one record per item is
created in order. Table writes themselves are modelled as reliable. -/
def createTasksFromActionItems (airtableConfigured : Bool)
    (actionItems : Option (List ActionItem)) (meetingId projectId : String)
    (taskStore : List TaskRecord) :
    Except AppError (List TaskRecord × List TaskRecord) :=
  if ¬ airtableConfigured then
    .error ⟨"Failed to create tasks from action items", 500⟩
  else
    match actionItems with
    | none => .ok ([], taskStore)
    | some l =>
      if l.length = 0 then .ok ([], taskStore)
      else
        let created := createdTaskRecords taskStore.length l meetingId projectId
        .ok (created, taskStore ++ created)

/-- Durable state one pipeline run can reach: the run's own meeting record
plus the task table (each run only reads and writes its own meeting by id). -/
structure RunState where
  meeting : MeetingFields
  tasks : List TaskRecord
deriving DecidableEq, Repr

/-- processAIAnalysis from meetingRoutes.js (lines 143-184): run the four AI
stages, then write transcript, mom and summary in a single partial update,
then, only when at least one action item was extracted, create the tasks and
write the task-ID list in a second partial update. Partial updates leave
unmentioned fields untouched (Airtable update semantics). The result is the
durable state actually reached together with the error rethrown, if any:
writes performed before a later failure stay durable (the route's upload
happens on a configured Airtable backend, so record updates are modelled as
reliable). -/
def processAIAnalysis (openaiConfigured airtableConfigured : Bool)
    (env : Providers) (title : String) (participants : List String)
    (meetingId projectId : String) (st : RunState) :
    RunState × Option AppError :=
  match processCompleteeMeeting openaiConfigured env title participants with
  | .error e => (st, some e)
  | .ok r =>
    let afterMain : RunState :=
      ⟨{ st.meeting with
          transcript := some r.transcription.text
          mom := some r.mom
          summary := some r.emailSummary }, st.tasks⟩
    if r.actionItems.length > 0 then
      match createTasksFromActionItems airtableConfigured (some r.actionItems)
          meetingId projectId st.tasks with
      | .error e => (afterMain, some e)
      | .ok (created, tasksAfter) =>
        (⟨{ afterMain.meeting with action_points := some (created.map (·.id)) },
          tasksAfter⟩, none)
    else
      (afterMain, none)

/-- Background run as fired by the upload route (meetingRoutes.js lines
120-134): processAIAnalysis with a catch that overwrites the meeting's mom
field with a human-readable failure marker built from the error message,
leaving every other field of the record as it stood when the error was
caught. The marker write itself is modelled as reliable (its own failure is
only logged in the source). -/
def runPipeline (openaiConfigured airtableConfigured : Bool) (env : Providers)
    (title : String) (participants : List String)
    (meetingId projectId : String) (st : RunState) : RunState :=
  match processAIAnalysis openaiConfigured airtableConfigured env title
      participants meetingId projectId st with
  | (stAfter, none) => stAfter
  | (stAfter, some e) =>
    ⟨{ stAfter.meeting with
        mom := some ("AI processing failed: " ++ e.message) },
      stAfter.tasks⟩

/-- JavaScript value as seen by parseParticipants: null, undefined, a string,
or any other non-string value. -/
inductive JSVal
  | jsNull
  | jsUndefined
  | jsStr (s : String)
  | jsOther
deriving DecidableEq, Repr

/-- JavaScript String.split on a comma, over the character list: split points
at every comma, adjacent commas yielding empty entries; the empty input gives
one empty entry. -/
def splitCommaChars : List Char → List (List Char)
  | [] => [[]]
  | c :: rest =>
    match splitCommaChars rest with
    | [] => [[]]
    | cur :: more =>
      if c = ',' then [] :: cur :: more else (c :: cur) :: more

/-- JavaScript String.split passed a comma separator. -/
def jsSplitComma (s : String) : List String :=
  (splitCommaChars s.data).map (fun cs => String.mk cs)

/-- Whitespace test used by JavaScript String.trim, on the characters that
occur in this codebase. -/
def isWhitespaceChar (c : Char) : Bool :=
  c = ' ' || c = '\t' || c = '\n' || c = '\r'

/-- JavaScript String.trim: drop whitespace from both ends. -/
def jsTrim (s : String) : String :=
  String.mk
    (((s.data.dropWhile isWhitespaceChar).reverse.dropWhile
      isWhitespaceChar).reverse)

/-- parseParticipants from the meeting model (lines 117-126): a non-string
argument, and a falsy one (null, undefined, the empty string), yields the
empty array; otherwise the string is split on commas, every entry trimmed,
and whitespace-only entries dropped. -/
def parseParticipants : JSVal → List String
  | .jsStr s =>
    if s = "" then []
    else ((jsSplitComma s).map jsTrim).filter (fun p => p.length > 0)
  | _ => []

/-- Valid priority labels of the task model (TASK_PRIORITY in the task
model). -/
def validPriorities : List String := ["low", "medium", "high", "urgent"]

/-- Field contract the spec states for a task materialized from one action
item: the name is the item text, the owner is the assignee unless it is the
sentinel (then unset, never defaulted), the deadline likewise, the
description is the fixed provenance template around the item text, the
priority is the item's priority defaulting to medium when none was supplied,
the status is pending, and the record back-references the supplied project
and meeting. -/
def TaskMatchesSpec (item : ActionItem) (meetingId projectId : String)
    (f : TaskFields) : Prop :=
  f.name = item.task ∧
  f.owner_id =
    (if item.assignee = "Not specified" then none else some item.assignee) ∧
  f.deadline =
    (if item.deadline = "Not specified" then none else some item.deadline) ∧
  f.description = "Auto-generated from meeting action item: " ++ item.task ∧
  f.priority = item.priority.getD "medium" ∧
  f.status = "pending" ∧
  f.team = projectId ∧
  f.source_meeting = some [meetingId]

/-!
Concrete data used by witnesses and counterexamples: a sample transcription,
sample action items (the end-to-end scenario of the spec), provider
environments for the distinct failure shapes, and sample durable states.
-/

/-- Sample raw transcription returned by the provider. -/
def sampleRaw : TranscriptionRaw :=
  ⟨"Alice will send the report by Friday. Bob to review the budget.", 42, "en",
    [(0, "Alice will send the report by Friday. Bob to review the budget.")],
    []⟩

/-- Sample TranscriptionResult assembled from the sample raw response. -/
def sampleResult : TranscriptionResult :=
  ⟨sampleRaw.text, sampleRaw.duration, sampleRaw.language, sampleRaw.segments,
    sampleRaw.words⟩

/-- Durable state of a freshly created meeting: every pipeline field null and
no tasks. -/
def freshState : RunState := ⟨⟨none, none, none, none⟩, []⟩

/-- Sample action item with a named assignee and a deadline. -/
def demoItem1 : ActionItem :=
  ⟨"send the report", "Alice", "Friday", some "high", "Development"⟩

/-- Sample action item carrying both sentinels and no priority. -/
def demoItem2 : ActionItem :=
  ⟨"review the budget", "Not specified", "Not specified", none, "General"⟩

/-- Sample extracted list. -/
def demoItems : List ActionItem := [demoItem1, demoItem2]

/-- Parsed action item violating the item invariants: empty description and
an out-of-range priority label. -/
def badItem : ActionItem := ⟨"", "Alice", "Friday", some "banana", "General"⟩

/-- Providers for a run whose minutes synthesis fails with a plain provider
error after a successful transcription. -/
def envMomFail : Providers :=
  ⟨.ok sampleRaw, fun _ => .error (some 500), fun _ => .ok (.items []),
    fun _ => .ok ("unused")⟩

/-- Providers for a run whose extraction fails with a provider outage after
transcription and minutes synthesis both succeeded. -/
def envExtractFail : Providers :=
  ⟨.ok sampleRaw, fun _ => .ok ("MOM for the sync"), fun _ => .error (some 503),
    fun _ => .ok ("unused")⟩

/-- Providers for a fully successful run extracting the two sample items. -/
def envHappy : Providers :=
  ⟨.ok sampleRaw, fun _ => .ok ("MOM text"), fun _ => .ok (.items demoItems),
    fun _ => .ok ("Summary text")⟩

/-- Providers for a fully successful run extracting zero action items. -/
def envNoItems : Providers :=
  ⟨.ok sampleRaw, fun _ => .ok ("MOM text"), fun _ => .ok (.items []),
    fun _ => .ok ("Summary text")⟩

/-- Task record present before a sample run. -/
def oldTask : TaskRecord :=
  ⟨"recOld", ⟨"old task", none, "pending", none, none, "p1",
    "old description", "medium"⟩⟩

/-- Durable state of a meeting that already went through an earlier
successful run. -/
def processedState : RunState :=
  ⟨⟨some ("old transcript"), some ("old mom"), some ("old summary"),
    some (["recOld"])⟩, [oldTask]⟩

theorem except_bind_ok {α β : Type} (a : α) (f : α → Except AppError β) :
    ((Except.ok a : Except AppError α) >>= f) = f a := rfl

theorem except_bind_error {α β : Type} (e : AppError)
    (f : α → Except AppError β) :
    ((Except.error e : Except AppError α) >>= f) = Except.error e := rfl

theorem except_pure {α : Type} (a : α) :
    (pure a : Except AppError α) = Except.ok a := rfl

/-- C1: a run whose transcription succeeds and whose minutes synthesis fails
does NOT leave the stage-1 transcript on the record: on the concrete run below
stage 1 succeeds and stage 2 fails, yet the record observable after the run
has a null transcript (nothing is persisted before all four AI stages
succeed), contradicting the claim that the transcript field is then
non-null. -/
theorem C1_counterexample :
    transcribeAudio true envMomFail.whisper = .ok sampleResult ∧
    generateMOM true envMomFail.momChat sampleResult.text "Sprint sync"
      ["Alice"] = .error ⟨"Failed to generate Minutes of Meeting", 500⟩ ∧
    (runPipeline true true envMomFail "Sprint sync" ["Alice"] "m1" "p1"
      freshState).meeting.transcript = none :=
  ⟨rfl, rfl, rfl⟩

/-- C1 (amended): when transcription succeeds and minutes synthesis fails,
the run writes only the failure marker into the minutes field; every other
field of the record, the transcript included, keeps its pre-run value — so
the stage-1 transcript of this run is not persisted, while a transcript
already non-null from an earlier successful run is never overwritten or
discarded by the failed run. -/
theorem C1_mom_failure_marks_and_preserves
    (ac : Bool) (env : Providers) (title : String) (ps : List String)
    (mid pid : String) (st : RunState) (t : TranscriptionResult) (e : AppError)
    (h1 : transcribeAudio true env.whisper = .ok t)
    (h2 : generateMOM true env.momChat t.text title ps = .error e) :
    runPipeline true ac env title ps mid pid st =
      ⟨{ st.meeting with
          mom := some ("AI processing failed: " ++ e.message) },
        st.tasks⟩ := by
  simp only [runPipeline, processAIAnalysis, processCompleteeMeeting, h1, h2,
    except_bind_ok, except_bind_error]

/-- C1 witness: the amended statement at a concrete run over a record that
already holds results of an earlier successful run. -/
theorem C1_witness :
    runPipeline true true envMomFail "Sprint sync" ["Alice"] "m1" "p1"
      processedState =
      ⟨{ processedState.meeting with
          mom := some ("AI processing failed: "
            ++ "Failed to generate Minutes of Meeting") },
        processedState.tasks⟩ :=
  C1_mom_failure_marks_and_preserves true envMomFail "Sprint sync" ["Alice"]
    "m1" "p1" processedState sampleResult
    ⟨"Failed to generate Minutes of Meeting", 500⟩ rfl rfl

/-- C2: stage results are not written durably before the next stage begins:
on the concrete run below minutes synthesis succeeds and extraction then
fails, yet the record after the run holds neither the transcript nor the
minutes — only the failure marker — so neither the transcript was persisted
before stage 2 began nor the minutes before stage 3 began. -/
theorem C2_counterexample :
    generateMOM true envExtractFail.momChat sampleResult.text "Sprint sync"
      [] = .ok ("MOM for the sync") ∧
    runPipeline true true envExtractFail "Sprint sync" [] "m1" "p1"
      freshState =
      ⟨⟨none, some ("AI processing failed: Failed to extract action items"),
        none, none⟩, []⟩ :=
  ⟨rfl, rfl⟩

/-- C2 (amended): the stages run strictly in the order transcribe, minutes,
extraction, summary, materialization, each consuming the previous stage's
in-memory result, but persistence is batched: when all four AI stages succeed
the transcript, minutes and summary are written in one update, then tasks are
materialized and the task-ID list written; nothing is persisted before that
point. -/
theorem C2_sequencing_batched_persistence
    (env : Providers) (title : String) (ps : List String) (mid pid : String)
    (st : RunState) (t : TranscriptionResult) (mom : String)
    (items : List ActionItem) (summary : String)
    (h1 : transcribeAudio true env.whisper = .ok t)
    (h2 : generateMOM true env.momChat t.text title ps = .ok mom)
    (h3 : extractActionItems true env.extractChat t.text = .ok items)
    (h4 : generateEmailSummary true env.summaryChat mom items = .ok summary)
    (h5 : 0 < items.length) :
    processAIAnalysis true true env title ps mid pid st =
      (⟨⟨some t.text, some mom, some summary,
          some ((createdTaskRecords st.tasks.length items mid pid).map
            (·.id))⟩,
        st.tasks ++ createdTaskRecords st.tasks.length items mid pid⟩,
        none) ∧
    runPipeline true true env title ps mid pid st =
      ⟨⟨some t.text, some mom, some summary,
          some ((createdTaskRecords st.tasks.length items mid pid).map
            (·.id))⟩,
        st.tasks ++ createdTaskRecords st.tasks.length items mid pid⟩ := by
  have h5' : items.length ≠ 0 := Nat.pos_iff_ne_zero.mp h5
  have key : processAIAnalysis true true env title ps mid pid st =
      (⟨⟨some t.text, some mom, some summary,
          some ((createdTaskRecords st.tasks.length items mid pid).map
            (·.id))⟩,
        st.tasks ++ createdTaskRecords st.tasks.length items mid pid⟩,
        none) := by
    simp only [processAIAnalysis, processCompleteeMeeting, h1, h2, h3, h4,
      except_bind_ok, except_pure, createTasksFromActionItems, h5, if_pos,
      not_true, if_neg h5']
    simp
  exact ⟨key, by simp only [runPipeline, key]⟩

/-- C2 witness: the amended statement at a concrete fully successful run with
two extracted items. -/
theorem C2_witness :
    processAIAnalysis true true envHappy "Sprint sync" [] "m1" "p1"
      freshState =
      (⟨⟨some sampleResult.text, some ("MOM text"), some ("Summary text"),
          some ((createdTaskRecords 0 demoItems "m1" "p1").map (·.id))⟩,
        createdTaskRecords 0 demoItems "m1" "p1"⟩, none) ∧
    runPipeline true true envHappy "Sprint sync" [] "m1" "p1" freshState =
      ⟨⟨some sampleResult.text, some ("MOM text"), some ("Summary text"),
          some ((createdTaskRecords 0 demoItems "m1" "p1").map (·.id))⟩,
        createdTaskRecords 0 demoItems "m1" "p1"⟩ :=
  C2_sequencing_batched_persistence envHappy "Sprint sync" [] "m1" "p1"
    freshState sampleResult ("MOM text") demoItems ("Summary text")
    rfl rfl rfl rfl (by decide)

/-- C3: whenever any step of a run fails, the run stops there and the record
observable afterwards carries the human-readable failure marker holding the
error message in its minutes slot, every other field keeping the durable
value it had when the error was caught; and when the failure happened inside
the four AI stages, nothing at all had been persisted yet, so the final state
differs from the pre-run state only in that marker — a failed run is never
indistinguishable from one still processing. -/
theorem C3_failed_run_trace (oc ac : Bool) (env : Providers) (title : String)
    (ps : List String) (mid pid : String) (st stAfter : RunState)
    (e : AppError)
    (h : processAIAnalysis oc ac env title ps mid pid st = (stAfter, some e)) :
    runPipeline oc ac env title ps mid pid st =
      ⟨{ stAfter.meeting with
          mom := some ("AI processing failed: " ++ e.message) },
        stAfter.tasks⟩ ∧
    (processCompleteeMeeting oc env title ps = .error e → stAfter = st) := by
  constructor
  · simp only [runPipeline, h]
  · intro hE
    have hEq : processAIAnalysis oc ac env title ps mid pid st =
        (st, some e) := by
      simp only [processAIAnalysis, hE]
    rw [h] at hEq
    exact (Prod.ext_iff.mp hEq).1

/-- C3 witness: the statement at a concrete run whose minutes synthesis
fails. -/
theorem C3_witness :
    runPipeline true true envMomFail "Sprint sync" ["Alice"] "m1" "p1"
      freshState =
      ⟨{ freshState.meeting with
          mom := some ("AI processing failed: "
            ++ "Failed to generate Minutes of Meeting") },
        freshState.tasks⟩ ∧
    (processCompleteeMeeting true envMomFail "Sprint sync" ["Alice"] =
        .error ⟨"Failed to generate Minutes of Meeting", 500⟩ →
      freshState = freshState) :=
  C3_failed_run_trace true true envMomFail "Sprint sync" ["Alice"] "m1" "p1"
    freshState freshState ⟨"Failed to generate Minutes of Meeting", 500⟩ rfl

/-- C9: a fully successful run whose extraction yields zero action items
persists the transcript, minutes and summary but never touches the task
table or the record's action_points field, which keeps its pre-run value;
the task materializer writes only when at least one item was extracted. -/
theorem C9_zero_items_frame (env : Providers) (title : String)
    (ps : List String) (mid pid : String) (st : RunState)
    (t : TranscriptionResult) (mom summary : String)
    (h1 : transcribeAudio true env.whisper = .ok t)
    (h2 : generateMOM true env.momChat t.text title ps = .ok mom)
    (h3 : extractActionItems true env.extractChat t.text = .ok [])
    (h4 : generateEmailSummary true env.summaryChat mom [] = .ok summary) :
    runPipeline true true env title ps mid pid st =
      ⟨⟨some t.text, some mom, some summary, st.meeting.action_points⟩,
        st.tasks⟩ := by
  simp only [runPipeline, processAIAnalysis, processCompleteeMeeting, h1, h2,
    h3, h4, except_bind_ok, except_pure]
  rfl

/-- C9 witness: the statement at a concrete zero-item run over a record that
already carries an action_points list and a task from an earlier run. -/
theorem C9_witness :
    runPipeline true true envNoItems "Sync" [] "m1" "p1" processedState =
      ⟨⟨some sampleResult.text, some ("MOM text"), some ("Summary text"),
          processedState.meeting.action_points⟩,
        processedState.tasks⟩ :=
  C9_zero_items_frame envNoItems "Sync" [] "m1" "p1" processedState
    sampleResult ("MOM text") ("Summary text") rfl rfl rfl rfl

theorem actionItemTaskFields_matches_spec (item : ActionItem)
    (mid pid : String) (hm : mid ≠ "") (hp : item.priority ≠ some "") :
    TaskMatchesSpec item mid pid (actionItemTaskFields item mid pid) := by
  unfold TaskMatchesSpec actionItemTaskFields
  refine ⟨rfl, ?_, ?_, rfl, ?_, rfl, rfl, if_pos hm⟩
  · by_cases h : item.assignee = "Not specified" <;> simp [h]
  · by_cases h : item.deadline = "Not specified" <;> simp [h]
  · cases hq : item.priority with
    | none => rfl
    | some p =>
      have hpe : p ≠ "" := fun he => hp (by rw [hq, he])
      simp [hpe]

theorem createdTaskRecords_length (mid pid : String) :
    ∀ (l : List ActionItem) (start : Nat),
      (createdTaskRecords start l mid pid).length = l.length := by
  intro l
  induction l with
  | nil => intro start; rfl
  | cons item rest ih =>
    intro start
    simp [createdTaskRecords, ih (start + 1)]

theorem createdTaskRecords_matches_spec (mid pid : String) (hm : mid ≠ "") :
    ∀ (l : List ActionItem) (start : Nat),
      (∀ item ∈ l, item.priority ≠ some "") →
      List.Forall₂ (fun item r => TaskMatchesSpec item mid pid r.fields) l
        (createdTaskRecords start l mid pid) := by
  intro l
  induction l with
  | nil => intro start _; exact List.Forall₂.nil
  | cons item rest ih =>
    intro start hp
    exact List.Forall₂.cons
      (actionItemTaskFields_matches_spec item mid pid hm
        (hp item (List.mem_cons_self _ _)))
      (ih (start + 1) (fun x hx => hp x (List.mem_cons_of_mem _ hx)))

/-- C4: materialization of any action-item list against a supplied meeting
and project creates exactly one task record per item, in order, appended to
the task table, and every created record satisfies the spec's field
contract: owner is the assignee unless it is the sentinel, then null and
never a default user; deadline passes through unless the sentinel, then
null; the description is the fixed provenance template around the item text;
the priority is the item's, defaulting to medium when none was supplied; the
status is pending; the team is the supplied project; and source_meeting
references the supplied meeting. -/
theorem C4_materializer (l : List ActionItem) (mid pid : String)
    (store : List TaskRecord) (hm : mid ≠ "")
    (hp : ∀ item ∈ l, item.priority ≠ some "") :
    createTasksFromActionItems true (some l) mid pid store =
      .ok (createdTaskRecords store.length l mid pid,
        store ++ createdTaskRecords store.length l mid pid) ∧
    (createdTaskRecords store.length l mid pid).length = l.length ∧
    List.Forall₂ (fun item r => TaskMatchesSpec item mid pid r.fields) l
      (createdTaskRecords store.length l mid pid) := by
  refine ⟨?_, createdTaskRecords_length mid pid l store.length,
    createdTaskRecords_matches_spec mid pid hm l store.length hp⟩
  cases l with
  | nil => simp [createTasksFromActionItems, createdTaskRecords]
  | cons item rest => simp [createTasksFromActionItems, createdTaskRecords]

/-- C4 witness: the statement at the end-to-end scenario list, one item with
a named assignee and one carrying both sentinels, against meeting m1 and
project p1 over an empty task table. -/
theorem C4_witness :
    ("m1" : String) ≠ "" ∧
    createTasksFromActionItems true (some demoItems) "m1" "p1" [] =
      .ok (createdTaskRecords 0 demoItems "m1" "p1",
        [] ++ createdTaskRecords 0 demoItems "m1" "p1") ∧
    List.Forall₂ (fun item r => TaskMatchesSpec item "m1" "p1" r.fields)
      demoItems (createdTaskRecords 0 demoItems "m1" "p1") :=
  ⟨by decide,
    (C4_materializer demoItems "m1" "p1" [] (by decide) (by decide)).1,
    (C4_materializer demoItems "m1" "p1" [] (by decide) (by decide)).2.2⟩

/-- C5: the transcription adapter maps a provider response with status 429 to
the rate-limited retry-later error, status 401 to a 500-class authentication
failure, status 413 to the payload-too-large failure, and every other failure
(provider outages and errors with no response status included) to the generic
transcription failure, with no retry anywhere; a successful call passes the
provider text through, so the result text is never null. -/
theorem C5_transcription_error_mapping (t : TranscriptionRaw) (s : Option Nat)
    (h429 : s ≠ some 429) (h401 : s ≠ some 401) (h413 : s ≠ some 413) :
    transcribeAudio true (.error (some 429)) =
      .error ⟨"OpenAI API rate limit exceeded. Please try again later.",
        429⟩ ∧
    transcribeAudio true (.error (some 401)) =
      .error ⟨"OpenAI API authentication failed", 500⟩ ∧
    transcribeAudio true (.error (some 413)) =
      .error ⟨"Audio file too large. Maximum size is 25MB.", 400⟩ ∧
    transcribeAudio true (.error s) =
      .error ⟨"Failed to transcribe audio", 500⟩ ∧
    transcribeAudio true (.ok t) =
      .ok ⟨t.text, t.duration, t.language, t.segments, t.words⟩ := by
  refine ⟨rfl, rfl, rfl, ?_, rfl⟩
  simp [transcribeAudio, h429, h401, h413]

/-- C5 witness: the statement at the sample transcription and a 503
provider-unavailable status. -/
theorem C5_witness :
    transcribeAudio true (.error (some 429)) =
      .error ⟨"OpenAI API rate limit exceeded. Please try again later.",
        429⟩ ∧
    transcribeAudio true (.error (some 401)) =
      .error ⟨"OpenAI API authentication failed", 500⟩ ∧
    transcribeAudio true (.error (some 413)) =
      .error ⟨"Audio file too large. Maximum size is 25MB.", 400⟩ ∧
    transcribeAudio true (.error (some 503)) =
      .error ⟨"Failed to transcribe audio", 500⟩ ∧
    transcribeAudio true (.ok sampleRaw) =
      .ok ⟨sampleRaw.text, sampleRaw.duration, sampleRaw.language,
        sampleRaw.segments, sampleRaw.words⟩ :=
  C5_transcription_error_mapping sampleRaw (some 503) (by decide) (by decide)
    (by decide)

/-- C6: extraction does not guarantee the item invariants: on the concrete
run below the provider response parses into one item whose description is
empty and whose priority is outside the valid set, and extraction returns it
untouched instead of failing or repairing it, contradicting the claim that
every returned item has a non-empty description and a valid priority. -/
theorem C6_counterexample :
    extractActionItems true (fun _ => .ok (.items [badItem]))
      ("Planning discussion") = .ok [badItem] ∧
    badItem.task = "" ∧
    badItem.priority = some "banana" ∧
    ¬ ("banana" ∈ validPriorities) :=
  ⟨rfl, rfl, rfl, by decide⟩

/-- C6 (amended): extraction either fails as a whole — an unparseable
provider response, or one whose parsed object lacks the action_items list,
is a hard failure with no partial-item recovery — or it returns the parsed
list verbatim, possibly empty and never null, with no per-item validation of
descriptions or priorities. -/
theorem C6_extraction_no_validation
    (chat : String → ProviderCall ExtractResponse) (text : String)
    (resp : ExtractResponse)
    (h : chat (extractPrompt text ("transcript")) = .ok resp) :
    extractActionItems true chat text =
      (match resp with
       | .unparseable => .error ⟨"Failed to extract action items", 500⟩
       | .missingItems => .error ⟨"Failed to extract action items", 500⟩
       | .items l => .ok l) := by
  cases resp <;> simp [extractActionItems, h]

/-- C6 witness: the amended statement at a parsed two-item response and at
the sample transcript. -/
theorem C6_witness :
    extractActionItems true (fun _ => .ok (.items demoItems))
      (sampleRaw.text) = .ok demoItems :=
  C6_extraction_no_validation (fun _ => .ok (.items demoItems))
    (sampleRaw.text) (.items demoItems) rfl

/-- C7: materializing a null or empty action-item list returns the empty
list without error and creates nothing: the task table is returned
unchanged. -/
theorem C7_empty_materialization (items : Option (List ActionItem))
    (mid pid : String) (store : List TaskRecord)
    (h : items = none ∨ items = some []) :
    createTasksFromActionItems true items mid pid store = .ok ([], store) := by
  rcases h with h | h <;> subst h <;> rfl

/-- C7 witness: the statement for both the null and the empty list over a
table already holding one task. -/
theorem C7_witness :
    createTasksFromActionItems true none "m1" "p1" [oldTask] =
      .ok ([], [oldTask]) ∧
    createTasksFromActionItems true (some []) "m1" "p1" [oldTask] =
      .ok ([], [oldTask]) :=
  ⟨C7_empty_materialization none "m1" "p1" [oldTask] (Or.inl rfl),
    C7_empty_materialization (some []) "m1" "p1" [oldTask] (Or.inr rfl)⟩

/-- C8: minutes synthesis does not fail on an empty participant list — the
prompt it sends renders the attendees slot as the literal placeholder and
the provider's minutes are returned — while a provider rate limit propagates
as the rate-limited failure (never silently as empty minutes) and any other
provider error becomes the generic synthesis failure. -/
theorem C8_mom_synthesis (chat : String → ProviderCall String)
    (transcript title mom : String) (s : Option Nat)
    (hok : chat (momPrompt transcript title []) = .ok mom)
    (hs : s ≠ some 429) :
    momPrompt transcript title [] =
      "\nPlease create comprehensive Minutes of Meeting (MOM) from the following meeting transcript.\n\nMeeting Title: "
        ++ title ++ "\nParticipants: " ++ "Not specified"
        ++ "\n\nTranscript:\n" ++ transcript
        ++ "\n\nPlease format the MOM with the following structure:\n1. Meeting Overview\n2. Attendees\n3. Key Discussion Points\n4. Decisions Made\n5. Action Items (with responsible persons if mentioned)\n6. Next Steps\n7. Next Meeting (if mentioned)\n\nMake it professional, concise, and well-organized.\n" ∧
    generateMOM true chat transcript title [] = .ok mom ∧
    generateMOM true (fun _ => .error (some 429)) transcript title [] =
      .error ⟨"OpenAI API rate limit exceeded. Please try again later.",
        429⟩ ∧
    generateMOM true (fun _ => .error s) transcript title [] =
      .error ⟨"Failed to generate Minutes of Meeting", 500⟩ := by
  refine ⟨rfl, ?_, rfl, ?_⟩
  · simp [generateMOM, hok]
  · simp [generateMOM, hs]

/-- C8 witness: the statement at the sample transcript, a fixed provider
answer and a 503 status for the generic branch. -/
theorem C8_witness :
    momPrompt (sampleRaw.text) "Sprint sync" [] =
      "\nPlease create comprehensive Minutes of Meeting (MOM) from the following meeting transcript.\n\nMeeting Title: "
        ++ "Sprint sync" ++ "\nParticipants: " ++ "Not specified"
        ++ "\n\nTranscript:\n" ++ sampleRaw.text
        ++ "\n\nPlease format the MOM with the following structure:\n1. Meeting Overview\n2. Attendees\n3. Key Discussion Points\n4. Decisions Made\n5. Action Items (with responsible persons if mentioned)\n6. Next Steps\n7. Next Meeting (if mentioned)\n\nMake it professional, concise, and well-organized.\n" ∧
    generateMOM true (fun _ => .ok ("Minutes text")) (sampleRaw.text)
      "Sprint sync" [] = .ok ("Minutes text") ∧
    generateMOM true (fun _ => .error (some 429)) (sampleRaw.text)
      "Sprint sync" [] =
      .error ⟨"OpenAI API rate limit exceeded. Please try again later.",
        429⟩ ∧
    generateMOM true (fun _ => .error (some 503)) (sampleRaw.text)
      "Sprint sync" [] =
      .error ⟨"Failed to generate Minutes of Meeting", 500⟩ :=
  C8_mom_synthesis (fun _ => .ok ("Minutes text")) (sampleRaw.text)
    "Sprint sync" ("Minutes text") (some 503) rfl (by decide)

/-- C10: parseParticipants always yields an array: the empty one on every
non-string value (and on the falsy empty string), and on any string the
comma-separated entries with surrounding whitespace removed and
whitespace-only entries dropped, so no element of the result is the empty
string. -/
theorem C10_parseParticipants (s x : String) (v : JSVal)
    (hv : ∀ w : String, v ≠ .jsStr w)
    (hx : x ∈ parseParticipants (.jsStr s)) :
    parseParticipants v = [] ∧
    parseParticipants (.jsStr s) =
      ((jsSplitComma s).map jsTrim).filter (fun p => p.length > 0) ∧
    x ≠ "" := by
  have h2 : parseParticipants (.jsStr s) =
      ((jsSplitComma s).map jsTrim).filter (fun p => p.length > 0) := by
    by_cases h : s = ""
    · subst h; rfl
    · simp [parseParticipants, h]
  refine ⟨?_, h2, ?_⟩
  · cases v with
    | jsStr w => exact absurd rfl (hv w)
    | jsNull => rfl
    | jsUndefined => rfl
    | jsOther => rfl
  · rw [h2] at hx
    have hlen : 0 < x.length :=
      of_decide_eq_true (List.mem_filter.mp hx).2
    intro he
    rw [he] at hlen
    exact absurd hlen (by decide)

/-- C10 witness: the statement at a string with padded names and an empty
entry, and at the null value for the non-string branch. -/
theorem C10_witness :
    parseParticipants .jsNull = [] ∧
    parseParticipants (.jsStr (" Alice , , Bob ")) =
      ((jsSplitComma (" Alice , , Bob ")).map jsTrim).filter
        (fun p => p.length > 0) ∧
    ("Alice" : String) ≠ "" :=
  C10_parseParticipants (" Alice , , Bob ") "Alice" .jsNull
    (fun _ h => JSVal.noConfusion h) (by decide)

end MeetMind
